import Mathlib

/-!
Shallow embedding of the sflux query-builder and line-protocol encoder
(files `sflux/utils.py`, `sflux/measurement.py`, `sflux/client.py`).

Python scalar field values are modelled by `PyVal`, with the float
special values NaN / +inf / -inf as explicit constructors and finite
float field values as decimal numbers `m / 10^e` (field digit rendering
is idealized; no theorem depends on it).  `json.dumps` (the body of
`parse_to_string`) is modelled for the value subset that the library
feeds it, including its string escaping and its default `", "` item
separator.  The timestamp arithmetic of `_parse_time`, which multiplies
by the float literals `1e3`/`1e6`/`1e9`, is modelled with genuine IEEE
binary64 semantics: `flDouble` rounds an exact rational to the nearest
double (ties to even), and `pyMulFloat` applies it to operand
conversion and product exactly as CPython does.
-/

namespace Sflux

/-- Finite or special Python float. `finite m e` stands for `m / 10^e`. -/
inductive PyFloat where
  | nan : PyFloat
  | inf : PyFloat
  | ninf : PyFloat
  | finite : Int → Nat → PyFloat
deriving DecidableEq, Repr

/-- Python scalar values that flow through the library. -/
inductive PyScalar where
  | none : PyScalar
  | bool : Bool → PyScalar
  | int : Int → PyScalar
  | float : PyFloat → PyScalar
  | str : String → PyScalar
deriving DecidableEq, Repr

/-- Values handed to `parse_to_string`: scalars, or the flat lists of
scalars (column names, membership sets) the library builds. -/
inductive PyVal where
  | scalar : PyScalar → PyVal
  | list : List PyScalar → PyVal
deriving DecidableEq, Repr

/-- Decimal rendition of a finite float `m / 10^e`, as Python's
`repr`/`str` shows a float that is an exact decimal: `finite 15 1` is
`"1.5"`, `finite 3 0` is `"3.0"`. -/
def pyFloatFiniteStr (m : Int) (e : Nat) : String :=
  let sign := if m < 0 then "-" else ""
  let digits := toString m.natAbs
  let digits := if digits.length ≤ e then
      String.mk (List.replicate (e + 1 - digits.length) '0') ++ digits
    else digits
  let intPart := digits.take (digits.length - e)
  let fracPart := digits.drop (digits.length - e)
  if e = 0 then sign ++ intPart ++ ".0"
  else sign ++ intPart ++ "." ++ fracPart

/-- Python `str()` of a float (also its `repr`). -/
def pyFloatStr : PyFloat → String
  | .nan => "nan"
  | .inf => "inf"
  | .ninf => "-inf"
  | .finite m e => pyFloatFiniteStr m e

/-- Python `str()` of a scalar, as used by f-string interpolation in
`measurement.py`. -/
def pyStr : PyScalar → String
  | .none => "None"
  | .bool b => if b then "True" else "False"
  | .int n => toString n
  | .float f => pyFloatStr f
  | .str s => s

/-- One hexadecimal digit, lowercase. -/
def hexDigit (n : Nat) : Char :=
  if n < 10 then Char.ofNat (48 + n) else Char.ofNat (87 + n)

/-- Four-digit lowercase hex, as in JSON `\uXXXX` escapes. -/
def hex4 (n : Nat) : String :=
  String.mk [hexDigit (n / 4096 % 16), hexDigit (n / 256 % 16),
             hexDigit (n / 16 % 16), hexDigit (n % 16)]

/-- Escape of one character under `json.dumps` with its default
`ensure_ascii=True`: printable ASCII other than the quote and the
backslash passes through; everything else is escaped. -/
def jsonEscapeChar (c : Char) : String :=
  if c = '"' then "\\\""
  else if c = '\\' then "\\\\"
  else if c.toNat = 8 then "\\b"
  else if c.toNat = 9 then "\\t"
  else if c.toNat = 10 then "\\n"
  else if c.toNat = 12 then "\\f"
  else if c.toNat = 13 then "\\r"
  else if c.toNat < 32 ∨ c.toNat > 126 then
    if c.toNat ≤ 65535 then "\\u" ++ hex4 c.toNat
    else
      let n := c.toNat - 65536
      "\\u" ++ hex4 (55296 + n / 1024) ++ "\\u" ++ hex4 (56320 + n % 1024)
  else String.singleton c

/-- Body of a JSON string literal for `s`: each character replaced by
its escape. -/
def jsonEscape (s : String) : String :=
  String.mk (s.data.flatMap (fun c => (jsonEscapeChar c).data))

/-- `json.dumps` restricted to the values the library serializes.  With
the default `allow_nan=True` the float specials render as `NaN`,
`Infinity`, `-Infinity`; the default item separator is `", "`. -/
def jsonDumpsScalar : PyScalar → String
  | .none => "null"
  | .bool b => if b then "true" else "false"
  | .int n => toString n
  | .float .nan => "NaN"
  | .float .inf => "Infinity"
  | .float .ninf => "-Infinity"
  | .float (.finite m e) => pyFloatFiniteStr m e
  | .str s => "\"" ++ jsonEscape s ++ "\""

/-- `json.dumps` on scalars and flat lists, with the default `", "`
item separator. -/
def jsonDumps : PyVal → String
  | .scalar v => jsonDumpsScalar v
  | .list vs => "[" ++ String.intercalate ", " (vs.map jsonDumpsScalar) ++ "]"

/-- `sflux.utils.parse_to_string`: the shared value-serialization
routine, whose whole body is `json.dumps(other)`.  `json.dumps` raises
`TypeError` on unserializable objects; on the value subset modelled
here it always succeeds, so the result is wrapped in `Except` to keep
the possibility of failure expressible. -/
def parse_to_string (v : PyVal) : Except String String :=
  Except.ok (jsonDumps v)

/-! ### `sflux/measurement.py` -/

/-- Python's `round()` on an exact value: round half to even. -/
def pyRound (q : ℚ) : ℤ :=
  let f := ⌊q⌋
  let frac := q - f
  if frac < 1/2 then f
  else if frac > 1/2 then f + 1
  else if f % 2 = 0 then f else f + 1

/-- `n` halvings suffice to compute `⌊log₂ n⌋`; the explicit fuel keeps
the recursion structural so the kernel can evaluate it on literals. -/
def natLog2Fuel : Nat → Nat → Nat
  | 0, _ => 0
  | fuel + 1, n => if n < 2 then 0 else natLog2Fuel fuel (n / 2) + 1

/-- `⌊log₂ n⌋` (0 for `n = 0`). -/
def natLog2 (n : Nat) : Nat := natLog2Fuel n n

/-- Round-half-even integer division `p/q` for `q > 0` — the rounding
used both by IEEE 754 round-to-nearest-even and by Python's `round()`. -/
def rheDiv (p q : ℤ) : ℤ :=
  let f := Int.fdiv p q
  let r := p - f * q
  if 2 * r < q then f
  else if q < 2 * r then f + 1
  else if f % 2 = 0 then f else f + 1

/-- Does the positive fraction `n/d` reach `2^c`? -/
def fracGePow2 (n : ℤ) (d : ℕ) (c : ℤ) : Bool :=
  if 0 ≤ c then decide (2 ^ c.toNat * (d : ℤ) ≤ n)
  else decide ((d : ℤ) ≤ n * 2 ^ (-c).toNat)

/-- IEEE 754 binary64 round-to-nearest-even of the positive value
`n/d`, as a pair (mantissa, exponent) with value `mantissa * 2^exponent`
and `2^52 ≤ mantissa ≤ 2^53`.  The seed `⌊log₂ n⌋ - ⌊log₂ d⌋`
overestimates `⌊log₂ (n/d)⌋` by at most one and is corrected by a
comparison.  Normal range only: subnormals and overflow to infinity are
not modelled (every use in this development is far inside the normal
range). -/
def flMantExp (n : ℤ) (d : ℕ) : ℤ × ℤ :=
  let seed : ℤ := (natLog2 n.toNat : ℤ) - (natLog2 d : ℤ)
  let lg : ℤ := if fracGePow2 n d seed then seed else seed - 1
  let e : ℤ := lg - 52
  let m : ℤ := if 0 ≤ e then rheDiv n ((d : ℤ) * 2 ^ e.toNat)
               else rheDiv (n * 2 ^ (-e).toNat) (d : ℤ)
  (m, e)

/-- `2^e` as a rational, for `e : ℤ`. -/
def qpow2 (e : ℤ) : ℚ :=
  if 0 ≤ e then ((2 ^ e.toNat : ℕ) : ℚ) else 1 / ((2 ^ (-e).toNat : ℕ) : ℚ)

/-- The rational value of a (mantissa, exponent) pair. -/
def flVal (p : ℤ × ℤ) : ℚ := (p.1 : ℚ) * qpow2 p.2

/-- Round an exact rational to the nearest IEEE binary64 double, ties
to even, returned as the double's exact rational value. -/
def flDouble (a : ℚ) : ℚ :=
  if a = 0 then 0
  else if 0 < a then flVal (flMantExp a.num a.den)
  else -flVal (flMantExp (-a).num (-a).den)

/-- A Python number as `Measurement.time` accepts it: an `int`, or a
`float` carried as the exact rational value of the IEEE binary64 double
the caller holds. -/
inductive PyNum where
  | int : ℤ → PyNum
  | float : ℚ → PyNum
deriving DecidableEq, Repr

/-- The exact numeric value, as used by Python's comparisons (CPython
compares an `int` with a `float` exactly, without converting). -/
def PyNum.toRat : PyNum → ℚ
  | .int z => z
  | .float x => x

/-- Python's `t * m` for a float multiplier `m`: an `int` operand is
first converted to a double (rounded to nearest), and the double
product is again rounded to binary64; a `float` operand multiplies
directly.  The result is a double, carried as its exact value. -/
def pyMulFloat (t : PyNum) (m : ℚ) : ℚ :=
  match t with
  | .int z => flDouble (flDouble (z : ℚ) * m)
  | .float x => flDouble (x * m)

/-- Python's `round()` on an `int` (identity) or a `float` (round half
to even). -/
def pyRoundNum : PyNum → ℤ
  | .int z => z
  | .float x => pyRound x

/-- `Measurement`: a name, fields in caller order, optional tags and an
optional numeric time (`int` or `float`, as `time()` accepts; a `float`
time loses nanosecond precision, as `measurement.py`'s own docstring
warns — the model reproduces that arithmetic). -/
structure Measurement where
  name : String
  fields : List (String × PyScalar)
  _tags : Option (List (String × String)) := Option.none
  _time : Option PyNum := Option.none
deriving DecidableEq, Repr

namespace Measurement

/-- `Measurement._field_is_valid`: `None`, `NaN` and `±inf` are invalid. -/
def _field_is_valid : PyScalar → Bool
  | .none => false
  | .float .nan => false
  | .float .inf => false
  | .float .ninf => false
  | _ => true

/-- `Measurement._parse_field_value`: quote strings verbatim, leave
everything else to f-string interpolation (`str()`). -/
def _parse_field_value : PyScalar → String
  | .str s => "\"" ++ s ++ "\""
  | v => pyStr v

/-- `Measurement._parse_fields`: keep the valid fields in caller order,
render each as `key=value`, join with commas. -/
def _parse_fields (fields : List (String × PyScalar)) : String :=
  String.intercalate ","
    ((fields.filter (fun kv => _field_is_valid kv.2)).map
      (fun kv => kv.1 ++ "=" ++ _parse_field_value kv.2))

/-- `Measurement._parse_tags` with the tags the interpreter finds at the
call site: iterating a `None` tag mapping raises `TypeError`. -/
def _parse_tags : Option (List (String × String)) → Except String String
  | Option.none => Except.error "TypeError: argument of type NoneType is not iterable"
  | Option.some tags =>
      Except.ok (String.intercalate "," (tags.map (fun kv => kv.1 ++ "=" ++ kv.2)))

/-- `Measurement._parse_time`: pick the unit multiplier by magnitude
(`> 1e18` nanoseconds, `> 1e15` microseconds, `> 1e12` milliseconds,
`> 1e9` seconds, otherwise `ValueError`), then return
`str(round(time * multiplier))`.  The nanosecond multiplier is the
`int` literal `1`, so `t * 1` is exact; the other multipliers are the
float literals `1e3`/`1e6`/`1e9` (each exactly representable), so the
product is rounded to binary64 before `round()`.  (The `ValueError`
message text is abridged.) -/
def _parse_time (t : PyNum) : Except String String :=
  if t.toRat > 10^18 then Except.ok (toString (pyRoundNum t))
  else if t.toRat > 10^15 then Except.ok (toString (pyRound (pyMulFloat t 1000)))
  else if t.toRat > 10^12 then Except.ok (toString (pyRound (pyMulFloat t 1000000)))
  else if t.toRat > 10^9 then Except.ok (toString (pyRound (pyMulFloat t 1000000000)))
  else Except.error "ValueError: Time needs to be at least in seconds"

/-- `Measurement.__repr__`.  The first branch tests
`self._time is not None and self.tags is not None`: `self.tags` is the
bound *method*, never `None`, so the test degenerates to
`self._time is not None` and the dedicated no-tags-with-time branch
(`elif self._time is not None`) is unreachable.  The embedding keeps
that behaviour: whenever a time is set, the tag section is rendered,
which raises on a `None` tag mapping. -/
def reprM (m : Measurement) : Except String String :=
  match m._time with
  | Option.some t => do
      let tg ← _parse_tags m._tags
      let tm ← _parse_time t
      Except.ok (m.name ++ "," ++ tg ++ " " ++ _parse_fields m.fields ++ " " ++ tm)
  | Option.none =>
      match m._tags with
      | Option.some _ => do
          let tg ← _parse_tags m._tags
          Except.ok (m.name ++ "," ++ tg ++ " " ++ _parse_fields m.fields)
      | Option.none => Except.ok (m.name ++ " " ++ _parse_fields m.fields)

/-- The line `__repr__` would produce in its dead
`elif self._time is not None` branch — the intended
timestamp-present/no-tags rendering `name <fields> <nanos>`. -/
def reprNoTagsIntended (m : Measurement) (t : PyNum) : Except String String := do
  let tm ← _parse_time t
  Except.ok (m.name ++ " " ++ _parse_fields m.fields ++ " " ++ tm)

end Measurement

/-! ### `sflux/client.py` — the `_Query` pipeline

A pipeline value holds the stage fragments and the required imports.
Each stage method is modelled as a function returning a pair: the state
of the *receiver* after the call, and the result (the new pipeline, or
the raised error).  The `add_to_query` decorator builds the new pipeline
from `self._components + query_addition` without touching the receiver,
so for those methods the returned receiver state is the receiver itself;
the `add_import` decorator, by contrast, appends to `self._imports` in
place before delegating, so `unpivot` returns an updated receiver. -/

/-- A column-name argument that may be a single string or a list
(`(str, list, tuple)` in the source annotations). -/
inductive SL where
  | str : String → SL
  | list : List String → SL
deriving DecidableEq, Repr

/-- The `if isinstance(x, str): x = [x]` normalization. -/
def SL.toList : SL → List String
  | .str s => [s]
  | .list xs => xs

/-- `parse_to_string` applied to a list of column-name strings. -/
def jsonStrList (xs : List String) : String :=
  jsonDumps (PyVal.list (xs.map PyScalar.str))

/-- The `_Query` pipeline state: stage fragments plus required imports. -/
structure Query where
  components : List String
  imports : List String
deriving DecidableEq, Repr

namespace Query

/-- `_Query.new`: one initial `from(bucket: "...")` fragment. -/
def new (bucket : String) : Query :=
  ⟨["from(bucket: \"" ++ bucket ++ "\")"], []⟩

/-- The `add_to_query` decorator: on success append the one produced
fragment to a *new* pipeline (`self._components + query_addition`); on
failure propagate the error.  (The decorator's own type check on the
produced fragment is always satisfied here, every stage body returns a
string.) -/
def add_to_query (q : Query) (addition : Except String String) : Except String Query :=
  addition.map (fun s => ⟨q.components ++ [s], q.imports⟩)

/-- An argument accepted by `range`'s validator.  `dt iso` is a
`datetime` carrying its `isoformat()` text; `other` is any value of a
type the validator does not recognize.  (The `float` branch, which goes
through `datetime.fromtimestamp`'s calendar arithmetic, is not modelled:
no claim exercises it.) -/
inductive RangeArg where
  | none : RangeArg
  | int : Int → RangeArg
  | str : String → RangeArg
  | dt : String → RangeArg
  | other : RangeArg
deriving DecidableEq, Repr

/-- `_Query._dt_to_rfc3339`: `isoformat().split('+')[0] + 'Z'`. -/
def _dt_to_rfc3339 (iso : String) : String :=
  ((iso.splitOn "+").headD iso) ++ "Z"

/-- `_Query._validate_range`, stop argument first, then start, exactly
as in the source; the validated values are returned already rendered to
the text the `range` f-string interpolates. -/
def _validate_range (start stop : RangeArg) : Except String (String × String) := do
  let v_stop ←
    match stop with
    | .none => Except.ok "now()"
    | .int z => Except.ok (toString z)
    | .str s => Except.ok s
    | .dt iso => Except.ok (_dt_to_rfc3339 iso)
    | .other => Except.error "ValueError: _type not recognized."
  let v_start ←
    match start with
    | .none => Except.error "ValueError: Invalid start value."
    | .int z => Except.ok (toString z)
    | .str s => Except.ok s
    | .dt iso => Except.ok (_dt_to_rfc3339 iso)
    | .other => Except.error "ValueError: _type not recognized."
  Except.ok (v_start, v_stop)

/-- `_Query.range`. -/
def range (q : Query) (start : RangeArg) (stop : RangeArg := RangeArg.none) :
    Query × Except String Query :=
  (q, add_to_query q ((_validate_range start stop).map
    (fun p => "|> range(start: " ++ p.1 ++ ", stop: " ++ p.2 ++ ")")))

/-- `_Query.filter`. -/
def filter (q : Query) (condition : String) : Query × Except String Query :=
  (q, add_to_query q (Except.ok ("|> filter(fn: (r) => " ++ condition ++ ")")))

/-- `_Query.pivot`. -/
def pivot (q : Query) (rows : SL := SL.str "_time") (columns : SL := SL.str "_field")
    (value : String := "_value") : Query × Except String Query :=
  (q, add_to_query q (Except.ok ("|> pivot(rowKey: " ++ jsonStrList rows.toList ++
    ", columnKey: " ++ jsonStrList columns.toList ++ ", valueColumn: \"" ++ value ++ "\")")))

/-- `_Query.group`: an absent `columns` leaves the columns component
empty, an absent `mode` leaves the mode component (with its leading
comma) empty. -/
def group (q : Query) (columns : Option SL := Option.none)
    (mode : Option String := Option.none) : Query × Except String Query :=
  let column_component :=
    match columns with
    | Option.some c => "columns: " ++ jsonStrList c.toList
    | Option.none => ""
  let mode_component :=
    match mode with
    | Option.some m => ", mode: \"" ++ m ++ "\""
    | Option.none => ""
  (q, add_to_query q (Except.ok ("|> group(" ++ column_component ++ mode_component ++ ")")))

/-- `_Query.sort`. -/
def sort (q : Query) (columns : SL) (desc : Bool := false) : Query × Except String Query :=
  (q, add_to_query q (Except.ok ("|> sort(columns: " ++ jsonStrList columns.toList ++
    ", desc: " ++ jsonDumps (PyVal.scalar (PyScalar.bool desc)) ++ ")")))

/-- `_Query.limit`. -/
def limit (q : Query) (n : Int := 10) (offset : Int := 0) : Query × Except String Query :=
  (q, add_to_query q (Except.ok ("|> limit(n: " ++ toString n ++
    ", offset: " ++ toString offset ++ ")")))

/-- `_Query.last`. -/
def last (q : Query) (column : String := "_value") : Query × Except String Query :=
  (q, add_to_query q (Except.ok ("|> last(column: \"" ++ column ++ "\")")))

/-- `_Query.drop`. -/
def drop (q : Query) (columns : List PyScalar) : Query × Except String Query :=
  (q, add_to_query q (Except.ok ("|> drop(columns: " ++ jsonDumps (PyVal.list columns) ++ ")")))

/-- An argument to `keep`: a list, a string, or anything else. -/
inductive KeepArg where
  | list : List PyScalar → KeepArg
  | str : String → KeepArg
  | other : KeepArg
deriving DecidableEq, Repr

/-- `_Query.keep` (the second, overriding definition in the class body):
a list renders the `columns:` form, a string renders the regex-predicate
form, anything else raises `AttributeError`. -/
def keep (q : Query) (columns : KeepArg) : Query × Except String Query :=
  (q, add_to_query q
    (match columns with
     | .list xs => Except.ok ("|> keep(columns: " ++ jsonDumps (PyVal.list xs) ++ ")")
     | .str s => Except.ok ("|> keep(fn: (column) => column =~ " ++ s ++ ")")
     | .other => Except.error "AttributeError: Columns attribute needs to be either a list or a string"))

/-- `_Query.mean`. -/
def mean (q : Query) (column : String := "_value") : Query × Except String Query :=
  (q, add_to_query q (Except.ok ("|> mean(column: \"" ++ column ++ "\")")))

/-- `_Query.std`. -/
def std (q : Query) (column : String := "_value") (mode : String := "sample") :
    Query × Except String Query :=
  (q, add_to_query q (Except.ok ("|> stddev(column: \"" ++ column ++
    "\", mode: \"" ++ mode ++ "\")")))

/-- `_Query.count`. -/
def count (q : Query) (column : String := "_value") : Query × Except String Query :=
  (q, add_to_query q (Except.ok ("|> count(column: \"" ++ column ++ "\")")))

/-- `_Query.fill`: the value and column are interpolated raw, the flag
is lower-cased. -/
def fill (q : Query) (value : PyScalar) (column : String := "_value")
    (use_previous : Bool := false) : Query × Except String Query :=
  (q, add_to_query q (Except.ok ("|> fill(value: " ++ pyStr value ++ ", column: " ++ column ++
    ", usePrevious: " ++ (if use_previous then "true" else "false") ++ ")")))

/-- `_Query.map`: operations as (new column, rendered operation) pairs. -/
def map (q : Query) (operations : List (String × String)) (keep_original : Bool := true) :
    Query × Except String Query :=
  let starter := if keep_original then " r with " else ""
  let comps := String.intercalate ", " (operations.map (fun kv => kv.1 ++ ": " ++ kv.2))
  (q, add_to_query q (Except.ok ("|> map(fn: (r) => (\x7b " ++ starter ++ " " ++ comps ++ " \x7d))")))

/-- `_Query.reduce`. -/
def reduce (q : Query) (reductor identity : List (String × String)) :
    Query × Except String Query :=
  let comps := String.intercalate ", " (reductor.map (fun kv => kv.1 ++ ": " ++ kv.2))
  let identity_str := String.intercalate ", " (identity.map (fun kv => kv.1 ++ ": " ++ kv.2))
  (q, add_to_query q (Except.ok ("|> reduce(fn: (r, accumulator) => (\x7b " ++ comps ++
    " \x7d), identity: \x7b " ++ identity_str ++ " \x7d)")))

/-- `_Query.aggregate_window`. -/
def aggregate_window (q : Query) (every : String := "1h") (fn : String := "last")
    (create_empty : Bool := false) : Query × Except String Query :=
  (q, add_to_query q (Except.ok ("|> aggregateWindow(every: " ++ every ++ ", fn: " ++ fn ++
    ", createEmpty: " ++ (if create_empty then "true" else "false") ++ ")")))

/-- `_Experimental.unpivot`, wrapped in `add_import('experimental')`:
the decorator appends `"experimental"` to the receiver's import list in
place when absent, then the stage body appends its fragment to a new
pipeline that shares the (just mutated) import list.  The returned pair
is (receiver after the call, new pipeline); the call cannot fail. -/
def unpivot (q : Query) (other_columns : SL := SL.list ["_time"]) : Query × Query :=
  let imps := if "experimental" ∈ q.imports then q.imports else q.imports ++ ["experimental"]
  let frag := "|> experimental.unpivot(otherColumns: " ++ jsonStrList other_columns.toList ++ ")"
  (⟨q.components, imps⟩, ⟨q.components ++ [frag], imps⟩)

/-- `_Query._generate_query_str`: one `import "..."` line per required
import, in list order, then the fragments, all newline-joined. -/
def _generate_query_str (q : Query) : String :=
  String.intercalate "\n"
    ((q.imports.map (fun i => "import \"" ++ i ++ "\"")) ++ q.components)

end Query

/-! ### Spec-side definitions

These follow the specification's words, to be compared with the
definitions read off the source. -/

/-- Per the spec: the line-protocol timestamp unit is picked by
magnitude alone — `> 1e18` nanoseconds (×1), `> 1e15` microseconds
(×1e3), `> 1e12` milliseconds (×1e6), `> 1e9` seconds (×1e9). -/
def lineProtoMultiplierSpec (t : ℚ) : ℚ :=
  if t > 10^18 then 1
  else if t > 10^15 then 1000
  else if t > 10^12 then 1000000
  else 1000000000

/-- The claim's exact-arithmetic reading: values at or below `1e9`
fail; otherwise the output is the rounded integer nanosecond count —
`round(t * multiplier)` computed exactly — rendered as decimal text.
(`Option.none` stands for the failure.)  The program computes the
product in binary64 instead, which is what refutes this reading. -/
def lineProtoNanosSpec (t : ℚ) : Option String :=
  if t ≤ 10^9 then Option.none
  else Option.some (toString (pyRound (t * lineProtoMultiplierSpec t)))

/-- The float-aware reading of the spec: the unit is still picked by
magnitude alone and values at or below `1e9` still fail, but the
multiplication by the float multipliers `1e3`/`1e6`/`1e9` follows IEEE
binary64 arithmetic (`t * 1` with the int multiplier stays exact), and
the returned text is the decimal rendering of `round()` of that
product. -/
def lineProtoNanosFloatSpec (t : PyNum) : Option String :=
  if t.toRat ≤ 10^9 then Option.none
  else if t.toRat > 10^18 then Option.some (toString (pyRoundNum t))
  else Option.some (toString (pyRound (pyMulFloat t (lineProtoMultiplierSpec t.toRat))))

/-- Per the spec: field encoding iterates the entries in caller order,
drops exactly the entries whose value is null, NaN or infinite, and
renders each survivor as `key=value`, strings double-quoted verbatim and
numeric/boolean values unquoted, comma-joined. -/
def encodeFieldsSpec (fields : List (String × PyScalar)) : String :=
  String.intercalate ","
    (fields.filterMap (fun kv =>
      if kv.2 = PyScalar.none ∨ kv.2 = PyScalar.float PyFloat.nan ∨
         kv.2 = PyScalar.float PyFloat.inf ∨ kv.2 = PyScalar.float PyFloat.ninf
      then Option.none
      else Option.some (kv.1 ++ "=" ++
        (match kv.2 with
         | PyScalar.str s => "\"" ++ s ++ "\""
         | v => pyStr v))))

/-- Registering the `"experimental"` import: append it when absent. -/
def addExperimental (l : List String) : List String :=
  if "experimental" ∈ l then l else l ++ ["experimental"]

/-- `n` chained `unpivot()` calls, each on the pipeline returned by the
previous one. -/
def unpivotIter (q : Query) : Nat → Query
  | 0 => q
  | n + 1 => ((unpivotIter q n).unpivot).2

end Sflux

deriving instance DecidableEq for Except

namespace Sflux

/-! ### Helper lemmas -/

/-- Merging a ground prefix of a string concatenation. -/
theorem append_left_merge (a b c x : String) (hab : a ++ b = c) :
    a ++ (b ++ x) = c ++ x := by
  rw [← String.append_assoc, hab]

/-- Unfolding `flDouble` at a positive value whose mantissa/exponent
pair has been computed. -/
theorem flDouble_pos_eq (a : ℚ) (m e : ℤ) (h0 : 0 < a)
    (h : flMantExp a.num a.den = (m, e)) : flDouble a = (m : ℚ) * qpow2 e := by
  rw [flDouble, if_neg h0.ne', if_pos h0, h, flVal]

/-- A printable ASCII character other than the double quote and the
backslash is its own JSON escape. -/
theorem jsonEscapeChar_plain (c : Char) (h1 : 32 ≤ c.toNat) (h2 : c.toNat ≤ 126)
    (h3 : c.toNat ≠ 34) (h4 : c.toNat ≠ 92) : jsonEscapeChar c = String.singleton c := by
  have e3 : c ≠ '"' := fun e => h3 (congrArg Char.toNat e)
  have e4 : c ≠ '\\' := fun e => h4 (congrArg Char.toNat e)
  rw [jsonEscapeChar, if_neg e3, if_neg e4, if_neg (by omega), if_neg (by omega),
    if_neg (by omega), if_neg (by omega), if_neg (by omega), if_neg (by omega)]

/-- JSON escaping leaves a list of plain printable characters alone. -/
theorem jsonEscape_data_plain (l : List Char)
    (h : ∀ c ∈ l, 32 ≤ c.toNat ∧ c.toNat ≤ 126 ∧ c.toNat ≠ 34 ∧ c.toNat ≠ 92) :
    l.flatMap (fun c => (jsonEscapeChar c).data) = l := by
  induction l with
  | nil => rfl
  | cons c t ih =>
    have hc := h c (by simp)
    rw [List.flatMap_cons,
      jsonEscapeChar_plain c hc.1 hc.2.1 hc.2.2.1 hc.2.2.2,
      ih (fun x hx => h x (by simp [hx]))]
    rfl

/-- The import list after one or more chained `unpivot()` calls. -/
theorem unpivotIter_imports (q : Query) (n : Nat) :
    (unpivotIter q (n + 1)).imports = addExperimental q.imports := by
  induction n with
  | zero => rfl
  | succ m ih =>
    show ((unpivotIter q (m + 1)).unpivot).2.imports = _
    rw [Query.unpivot]
    simp only [ih, addExperimental]
    split_ifs with ha hb <;> simp_all [List.mem_append]

/-! ### Claim theorems -/

/-- Claim C1 (code bug): a measurement with a timestamp and no tags does
not render to `name <fields> <nanos>`: because `__repr__` tests
`self.tags` (the bound method, never `None`) instead of `self._tags`,
the tagged branch is taken and iterating the `None` tag mapping raises
`TypeError`.  The field and time encoders do produce the pieces the
claim expects — the dead no-tags branch would have rendered exactly
`name a=1,c="s" 1625659548000000000`. -/
theorem timestamped_untagged_measurement_repr_raises :
    Measurement.reprM ⟨"name", [("a", PyScalar.int 1), ("b", PyScalar.float PyFloat.nan),
        ("c", PyScalar.str "s")], Option.none, Option.some (PyNum.int 1625659548)⟩
      = Except.error "TypeError: argument of type NoneType is not iterable"
    ∧ Measurement._parse_fields [("a", PyScalar.int 1), ("b", PyScalar.float PyFloat.nan),
        ("c", PyScalar.str "s")] = "a=1,c=\"s\""
    ∧ Measurement.reprNoTagsIntended ⟨"name", [("a", PyScalar.int 1),
        ("b", PyScalar.float PyFloat.nan), ("c", PyScalar.str "s")],
        Option.none, Option.some (PyNum.int 1625659548)⟩ (PyNum.int 1625659548)
      = Except.ok "name a=1,c=\"s\" 1625659548000000000" := by
  refine ⟨rfl, rfl, ?_⟩
  have hA : flDouble ((1625659548 : ℤ) : ℚ) = 1625659548 := by
    rw [flDouble_pos_eq _ (1625659548 * 2 ^ 22) (-22) (by norm_num)
      (by rw [show ((1625659548 : ℤ) : ℚ).num = 1625659548 by norm_num,
              show ((1625659548 : ℤ) : ℚ).den = 1 by norm_num]; decide)]
    rw [qpow2, if_neg (by norm_num), show (-(-22) : ℤ).toNat = 22 from rfl]
    norm_num
  have hB : flDouble ((1625659548000000000 : ℚ)) = 1625659548000000000 := by
    rw [flDouble_pos_eq _ 6350232609375000 8 (by norm_num)
      (by rw [show (1625659548000000000 : ℚ).num = 1625659548000000000 by norm_num,
              show (1625659548000000000 : ℚ).den = 1 by norm_num]; decide)]
    rw [qpow2, if_pos (by norm_num), show Int.toNat 8 = 8 from rfl]
    norm_num
  have h : Measurement._parse_time (PyNum.int 1625659548) = Except.ok "1625659548000000000" := by
    rw [Measurement._parse_time]
    simp only [PyNum.toRat]
    rw [if_neg (by norm_num), if_neg (by norm_num), if_neg (by norm_num), if_pos (by norm_num)]
    simp only [pyMulFloat]
    rw [hA, show (1625659548 : ℚ) * 1000000000 = 1625659548000000000 by norm_num, hB,
      show pyRound (1625659548000000000 : ℚ) = 1625659548000000000 by norm_num [pyRound]]
    decide
  simp only [Measurement.reprNoTagsIntended, h]
  rfl

/-- Claim C2, counterexample: the first `unpivot()` call mutates the
receiver pipeline — it appends `"experimental"` to the receiver's import
list in place, so afterwards the receiver renders with an extra
`import "experimental"` line. -/
theorem unpivot_mutates_receiver_render :
    ((Query.new "b").unpivot).1._generate_query_str ≠ (Query.new "b")._generate_query_str := by
  decide

/-- Claim C2, amended: every stage method other than the
import-registering `unpivot` leaves the receiver pipeline unmutated — it
builds the new pipeline from `self._components + [fragment]` and the
receiver renders to exactly the same text afterwards, whether the call
succeeds or fails. -/
theorem stage_methods_preserve_receiver_render (q : Query) (start stop : Query.RangeArg)
    (cond v col col2 col3 col4 mode every fnc : String) (rows cols scols : SL)
    (gcols : Option SL) (gmode : Option String) (desc up ce ko : Bool) (n off : Int)
    (dcols : List PyScalar) (ka : Query.KeepArg) (fv : PyScalar)
    (ops red idn : List (String × String)) :
    (q.range start stop).1._generate_query_str = q._generate_query_str
    ∧ (q.filter cond).1._generate_query_str = q._generate_query_str
    ∧ (q.pivot rows cols v).1._generate_query_str = q._generate_query_str
    ∧ (q.group gcols gmode).1._generate_query_str = q._generate_query_str
    ∧ (q.sort scols desc).1._generate_query_str = q._generate_query_str
    ∧ (q.limit n off).1._generate_query_str = q._generate_query_str
    ∧ (q.last col).1._generate_query_str = q._generate_query_str
    ∧ (q.drop dcols).1._generate_query_str = q._generate_query_str
    ∧ (q.keep ka).1._generate_query_str = q._generate_query_str
    ∧ (q.mean col2).1._generate_query_str = q._generate_query_str
    ∧ (q.std col3 mode).1._generate_query_str = q._generate_query_str
    ∧ (q.count col4).1._generate_query_str = q._generate_query_str
    ∧ (q.fill fv col up).1._generate_query_str = q._generate_query_str
    ∧ (q.map ops ko).1._generate_query_str = q._generate_query_str
    ∧ (q.reduce red idn).1._generate_query_str = q._generate_query_str
    ∧ (q.aggregate_window every fnc ce).1._generate_query_str = q._generate_query_str :=
  ⟨rfl, rfl, rfl, rfl, rfl, rfl, rfl, rfl, rfl, rfl, rfl, rfl, rfl, rfl, rfl, rfl⟩

/-- Claim C3, counterexample: the program multiplies by the float
`1e6`, so at the epoch-milliseconds timestamp 1625659548123 it returns
`1625659548123000064` — the double product `1625659548123 * 1e6` is not
exactly representable and rounds up by 64 — while the claimed exact
rounded nanosecond count is `1625659548123000000`. -/
theorem parse_time_float_product_drifts :
    Measurement._parse_time (PyNum.int 1625659548123) = Except.ok "1625659548123000064"
    ∧ lineProtoNanosSpec ((PyNum.int 1625659548123).toRat)
      = Option.some "1625659548123000000"
    ∧ Except.toOption (Measurement._parse_time (PyNum.int 1625659548123))
      ≠ lineProtoNanosSpec ((PyNum.int 1625659548123).toRat) := by
  have hA : flDouble ((1625659548123 : ℤ) : ℚ) = 1625659548123 := by
    rw [flDouble_pos_eq _ (1625659548123 * 2 ^ 12) (-12) (by norm_num)
      (by rw [show ((1625659548123 : ℤ) : ℚ).num = 1625659548123 by norm_num,
              show ((1625659548123 : ℤ) : ℚ).den = 1 by norm_num]; decide)]
    rw [qpow2, if_neg (by norm_num), show (-(-12) : ℤ).toNat = 12 from rfl]
    norm_num
  have hB : flDouble ((1625659548123000000 : ℚ)) = 1625659548123000064 := by
    rw [flDouble_pos_eq _ 6350232609855469 8 (by norm_num)
      (by rw [show (1625659548123000000 : ℚ).num = 1625659548123000000 by norm_num,
              show (1625659548123000000 : ℚ).den = 1 by norm_num]; decide)]
    rw [qpow2, if_pos (by norm_num), show Int.toNat 8 = 8 from rfl]
    norm_num
  have h1 : Measurement._parse_time (PyNum.int 1625659548123)
      = Except.ok "1625659548123000064" := by
    rw [Measurement._parse_time]
    simp only [PyNum.toRat]
    rw [if_neg (by norm_num), if_neg (by norm_num), if_pos (by norm_num)]
    simp only [pyMulFloat]
    rw [hA, show (1625659548123 : ℚ) * 1000000 = 1625659548123000000 by norm_num, hB,
      show pyRound (1625659548123000064 : ℚ) = 1625659548123000064 by norm_num [pyRound]]
    decide
  have h2 : lineProtoNanosSpec ((PyNum.int 1625659548123).toRat)
      = Option.some "1625659548123000000" := by
    rw [lineProtoNanosSpec, lineProtoMultiplierSpec]
    simp only [PyNum.toRat]
    rw [if_neg (by norm_num), if_neg (by norm_num), if_neg (by norm_num), if_pos (by norm_num),
      show pyRound (((1625659548123 : ℤ) : ℚ) * 1000000) = 1625659548123000000 by
        norm_num [pyRound]]
    decide
  exact ⟨h1, h2, by rw [h1, h2]; decide⟩

/-- Claim C3, amended: the line-protocol timestamp encoder picks the
unit by magnitude alone — `> 1e18` nanoseconds (×1), `> 1e15`
microseconds (×1e3), `> 1e12` milliseconds (×1e6), `> 1e9` seconds
(×1e9) — and every value `≤ 1e9` fails; the returned decimal text is
`round()` of the product computed in IEEE binary64 arithmetic (exact
for the int nanosecond multiplier 1), which can differ from the exact
nanosecond count in the low-order digits. -/
theorem parse_time_matches_float_magnitude_spec (t : PyNum) :
    Except.toOption (Measurement._parse_time t) = lineProtoNanosFloatSpec t := by
  rw [Measurement._parse_time, lineProtoNanosFloatSpec, lineProtoMultiplierSpec]
  split_ifs <;> first | rfl | linarith

/-- Claim C4: `range` with an absent start raises, whatever the stop
argument is, and the failure is atomic — the receiver pipeline is left
exactly as it was, with no fragment appended. -/
theorem range_missing_start_fails_atomically (q : Query) (stop : Query.RangeArg) :
    (q.range Query.RangeArg.none stop).1 = q
    ∧ ∃ e, (q.range Query.RangeArg.none stop).2 = Except.error e := by
  refine ⟨rfl, ?_⟩
  cases stop <;> exact ⟨_, rfl⟩

/-- Claim C5, counterexample: serializing the null value does not raise
— `parse_to_string` is `json.dumps`, which happily encodes `None`. -/
theorem serialize_none_does_not_error :
    ¬ ∃ e, parse_to_string (PyVal.scalar PyScalar.none) = Except.error e := by
  rintro ⟨e, he⟩
  simp [parse_to_string] at he

/-- Claim C5, amended: serializing the null value succeeds and produces
the JSON literal text `null`. -/
theorem serialize_none_yields_null_literal :
    parse_to_string (PyVal.scalar PyScalar.none) = Except.ok "null" := rfl

/-- Claim C6, counterexample: the serialization of a string containing a
double quote escapes the quote (JSON escaping), so the result is not the
verbatim double-quoted wrap the claim describes. -/
theorem serialize_quoted_string_escapes :
    parse_to_string (PyVal.scalar (PyScalar.str "a\"b")) = Except.ok "\"a\\\"b\""
    ∧ "\"a\\\"b\"" ≠ "\"" ++ "a\"b" ++ "\"" := by
  exact ⟨rfl, by decide⟩

/-- Claim C6, amended: string serialization is JSON encoding — the value
is wrapped in double quotes with each character replaced by its JSON
escape, so a string of printable ASCII characters other than the double
quote and the backslash is used verbatim inside the quotes. -/
theorem serialize_plain_string_verbatim_wrap (s : String)
    (h : ∀ c ∈ s.data, 32 ≤ c.toNat ∧ c.toNat ≤ 126 ∧ c.toNat ≠ 34 ∧ c.toNat ≠ 92) :
    parse_to_string (PyVal.scalar (PyScalar.str s)) = Except.ok ("\"" ++ s ++ "\"") := by
  have hs : jsonEscape s = s := by
    rw [jsonEscape, jsonEscape_data_plain s.data h]
  rw [parse_to_string, jsonDumps, jsonDumpsScalar, hs]

/-- Witness for the amended Claim C6, at the spec's field value `"s"`. -/
theorem serialize_plain_string_verbatim_wrap_witness :
    (∀ c ∈ ("s" : String).data, 32 ≤ c.toNat ∧ c.toNat ≤ 126 ∧ c.toNat ≠ 34 ∧ c.toNat ≠ 92)
    ∧ parse_to_string (PyVal.scalar (PyScalar.str "s")) = Except.ok ("\"" ++ "s" ++ "\"") :=
  ⟨by decide, serialize_plain_string_verbatim_wrap "s" (by decide)⟩

/-- Claim C7, counterexample: `keep(["a","b"])` appends
`|> keep(columns: ["a", "b"])` — `json.dumps` joins list items with a
comma and a space — not the claimed `|> keep(columns: ["a","b"])`. -/
theorem keep_list_fragment_has_comma_space :
    ((Query.new "b").keep (Query.KeepArg.list [PyScalar.str "a", PyScalar.str "b"])).2
      = Except.ok ⟨["from(bucket: \"b\")", "|> keep(columns: [\"a\", \"b\"])"], []⟩
    ∧ "|> keep(columns: [\"a\", \"b\"])" ≠ "|> keep(columns: [\"a\",\"b\"])" :=
  ⟨rfl, by decide⟩

/-- Claim C7, amended: `keep` has two rendering branches selected by
argument shape — a list appends `|> keep(columns: <json list>)` (items
joined with a comma and a space, so `["a","b"]` renders `["a", "b"]`), a
string appends `|> keep(fn: (column) => column =~ <s>)`, and anything
else raises. -/
theorem keep_two_branches (q : Query) (xs : List PyScalar) (s : String) :
    (q.keep (Query.KeepArg.list xs)).2
      = Except.ok ⟨q.components ++ ["|> keep(columns: " ++ jsonDumps (PyVal.list xs) ++ ")"],
          q.imports⟩
    ∧ (q.keep (Query.KeepArg.str s)).2
      = Except.ok ⟨q.components ++ ["|> keep(fn: (column) => column =~ " ++ s ++ ")"],
          q.imports⟩
    ∧ (q.keep Query.KeepArg.other).2
      = Except.error "AttributeError: Columns attribute needs to be either a list or a string"
    ∧ jsonDumps (PyVal.list [PyScalar.str "a", PyScalar.str "b"]) = "[\"a\", \"b\"]" :=
  ⟨rfl, rfl, rfl, by decide⟩

/-- Claim C8: however many times (≥ 1) `unpivot` is chained, the
resulting pipeline's import list carries `"experimental"` exactly once
(on a pipeline whose import list is duplicate-free, as every pipeline
built by the library is), and `render` emits one `import "..."` line per
import, in insertion order, before the newline-joined fragments. -/
theorem unpivot_import_registered_once (q : Query) (n : Nat) (h : q.imports.Nodup) :
    (unpivotIter q (n + 1)).imports.count "experimental" = 1
    ∧ (unpivotIter q (n + 1)).imports = addExperimental q.imports
    ∧ (unpivotIter q (n + 1))._generate_query_str
      = String.intercalate "\n"
          (((unpivotIter q (n + 1)).imports.map (fun i => "import \"" ++ i ++ "\""))
            ++ (unpivotIter q (n + 1)).components) := by
  refine ⟨?_, unpivotIter_imports q n, rfl⟩
  rw [unpivotIter_imports q n, addExperimental]
  by_cases hm : "experimental" ∈ q.imports
  · rw [if_pos hm]
    exact List.count_eq_one_of_mem h hm
  · rw [if_neg hm, List.count_append, List.count_eq_zero.mpr hm]
    simp

/-- Witness for Claim C8: two chained `unpivot()` calls on a fresh
pipeline register a single `experimental` import. -/
theorem unpivot_import_registered_once_witness :
    (Query.new "bucket").imports.Nodup
    ∧ ((unpivotIter (Query.new "bucket") 2).imports.count "experimental" = 1
       ∧ (unpivotIter (Query.new "bucket") 2).imports
         = addExperimental (Query.new "bucket").imports
       ∧ (unpivotIter (Query.new "bucket") 2)._generate_query_str
         = String.intercalate "\n"
             (((unpivotIter (Query.new "bucket") 2).imports.map
                (fun i => "import \"" ++ i ++ "\""))
               ++ (unpivotIter (Query.new "bucket") 2).components)) :=
  ⟨by decide, unpivot_import_registered_once (Query.new "bucket") 1 (by decide)⟩

/-- Claim C9: field encoding walks the entries in caller order, drops
exactly those whose value is null, NaN or infinite, and renders each
survivor as `key=value` comma-joined — strings double-quoted verbatim,
numeric and boolean values unquoted. -/
theorem parse_fields_matches_field_encoding_spec (fields : List (String × PyScalar)) :
    Measurement._parse_fields fields = encodeFieldsSpec fields := by
  rw [Measurement._parse_fields, encodeFieldsSpec]
  congr 1
  induction fields with
  | nil => rfl
  | cons kv t ih =>
    obtain ⟨k, v⟩ := kv
    cases v with
    | float f =>
      cases f <;> simp_all [Measurement._field_is_valid, Measurement._parse_field_value,
        List.filter_cons, List.filterMap_cons]
    | _ =>
      simp_all [Measurement._field_is_valid, Measurement._parse_field_value,
        List.filter_cons, List.filterMap_cons]

/-- Claim C10: `group` with no columns and a non-null mode appends the
fragment `|> group(, mode: "<m>")` — the mode component keeps its
leading comma even though the columns component is empty, so the text
contains `group(,`. -/
theorem group_no_columns_keeps_leading_comma (q : Query) (m : String) :
    (q.group Option.none (Option.some m)).2
      = Except.ok ⟨q.components ++ ["|> group(, mode: \"" ++ m ++ "\")"], q.imports⟩
    ∧ ∃ rest, "|> group(, mode: \"" ++ m ++ "\")" = "|> group(," ++ rest := by
  constructor
  · simp only [Query.group, Query.add_to_query, Except.map, String.append_assoc,
      String.append_empty, String.empty_append]
    rw [show ("\"" : String) ++ ")" = "\")" by decide,
      append_left_merge "|> group(" ", mode: \"" "|> group(, mode: \"" (m ++ "\")") (by decide)]
  · refine ⟨" mode: \"" ++ (m ++ "\")"), ?_⟩
    have h : ("|> group(, mode: \"" : String) = "|> group(," ++ " mode: \"" := by decide
    simp only [String.append_assoc]
    rw [h, String.append_assoc]

end Sflux
